import Mathlib

/-!
Verification development for the conversational honey-pot service
(`agent.py`: `ScamAgent.detect_scam`, `ScamAgent.generate_response`,
`ScamAgent.extract_intelligence`; `main.py`: `handle_message_root`).

The Python code is shallowly embedded:
* JSON-derived Python values are the inductive `Json` (numbers are modelled as
  integers; no verified statement depends on float behaviour).
* The external text-generation provider (`_call_llm_api`, which either raises
  or yields `response["choices"][0]["message"]["content"]`) is a parameter
  `provider : List ChatMsg → Except Unit String`; `.error` covers every way the
  call can raise (network, auth, quota, missing response fields).
* Python's `json.loads` is an external library function and is passed in as a
  parameter `loads : String → Option Json` (`none` = `JSONDecodeError`).
* `re.findall` for the four fixed patterns is implemented by a small
  backtracking matcher (`mall`) over a regex AST that mirrors the pattern
  strings, with Python's leftmost/greedy/non-overlapping `findall` semantics.
* Python's `list(set(. ))` produces a deduplicated list in unspecified order;
  it is modelled as the corresponding `Finset Json`.  Python's cross-type
  numeric equality (`1 == True`) is approximated by structural equality; no
  verified statement depends on it.
* Exceptions are modelled with `Except Unit`; a `try/except` block is a
  `match` on the result.
-/

/- Values produced by Python's `json.loads` (and Python scalars generally).
`JsonArr`/`JsonFields` are spine-level lists so that `DecidableEq` can be
derived (a nested `List Json` cannot). -/
mutual
/-- JSON-derived Python value. -/
inductive Json where
  | jnull
  | jbool (b : Bool)
  | jnum (n : Int)
  | jstr (s : String)
  | jarr (elems : JsonArr)
  | jobj (fields : JsonFields)
deriving DecidableEq
/-- Spine of a JSON array. -/
inductive JsonArr where
  | anil
  | acons (hd : Json) (tl : JsonArr)
deriving DecidableEq
/-- Spine of a JSON object (key/value pairs in textual order). -/
inductive JsonFields where
  | fnil
  | fcons (key : String) (val : Json) (tl : JsonFields)
deriving DecidableEq
end

/-- Elements of a JSON array, as a `List`. -/
def JsonArr.toList : JsonArr → List Json
  | .anil => []
  | .acons h t => h :: t.toList

/-- Key/value pairs of a JSON object, in textual order, as a `List`. -/
def JsonFields.toList : JsonFields → List (String × Json)
  | .fnil => []
  | .fcons k v t => (k, v) :: t.toList

/-- Python `dict.get(key)` for a dict built by `json.loads`: with duplicate
keys the last occurrence wins, as in Python. -/
def jget : JsonFields → String → Option Json
  | .fnil, _ => none
  | .fcons k v t, key =>
    match jget t key with
    | some r => some r
    | none => if k = key then some v else none

/-- Python truthiness of a JSON-derived value (`bool(v)`). -/
def pyTruthy : Json → Bool
  | .jnull => false
  | .jbool b => b
  | .jnum n => n ≠ 0
  | .jstr s => s ≠ ""
  | .jarr a => a.toList ≠ []
  | .jobj f => f.toList ≠ []

/-- Hashability of a JSON-derived value: Python's `set()` raises `TypeError`
on lists and dicts. -/
def Json.hashable : Json → Bool
  | .jarr _ => false
  | .jobj _ => false
  | _ => true

/-! String helpers.  Python's `str.strip`, `str.lower` and `in` are
re-implemented over `List Char` (ASCII behaviour; the keyword tables and
literals of the source are ASCII) so that every definition reduces in the
kernel. -/

/-- Characters stripped by Python `str.strip()` (common whitespace). -/
def isWs (c : Char) : Bool := c = ' ' || c = '\t' || c = '\n' || c = '\r'

/-- Lowercase an ASCII character (Python `str.lower` on ASCII input). -/
def lowerChar (c : Char) : Char :=
  if 'A' ≤ c ∧ c ≤ 'Z' then Char.ofNat (c.toNat + 32) else c

/-- Characters of a string. -/
def strChars (s : String) : List Char := s.toList

/-- String from characters. -/
def chStr (cs : List Char) : String := String.mk cs

/-- Python `s.lower()` (ASCII). -/
def pyLower (s : String) : String := chStr ((strChars s).map lowerChar)

/-- Python `s.strip()`. -/
def pyStrip (s : String) : String :=
  chStr ((((strChars s).dropWhile isWs).reverse.dropWhile isWs).reverse)

/-- Substring test over characters. -/
def containsSub (hay needle : List Char) : Bool :=
  hay.tails.any (fun t => needle.isPrefixOf t)

/-- Python `needle in hay` for strings. -/
def pyIn (needle hay : String) : Bool := containsSub (strChars hay) (strChars needle)

/-- Python `" ".join(parts)`. -/
def spaceJoin (parts : List String) : String :=
  chStr (List.intercalate (strChars " ") (parts.map strChars))

/- Python `repr` of a JSON-derived value (scalars exact; container rendering
follows Python's bracketed form, modulo string-escape subtleties that no
verified statement depends on). -/
mutual
/-- Python `repr(v)` of a JSON-derived value. -/
def pyRepr : Json → String
  | .jnull => "None"
  | .jbool true => "True"
  | .jbool false => "False"
  | .jnum n => toString n
  | .jstr s => "'" ++ s ++ "'"
  | .jarr a => "[" ++ String.intercalate ", " (pyReprArr a) ++ "]"
  | .jobj f => "\x7b" ++ String.intercalate ", " (pyReprFields f) ++ "\x7d"
/-- Rendered elements of a JSON array. -/
def pyReprArr : JsonArr → List String
  | .anil => []
  | .acons h t => pyRepr h :: pyReprArr t
/-- Rendered key/value pairs of a JSON object. -/
def pyReprFields : JsonFields → List String
  | .fnil => []
  | .fcons k v t => ("'" ++ k ++ "': " ++ pyRepr v) :: pyReprFields t
end

/-- Python `str(v)` as interpolated by an f-string. -/
def pyStr : Json → String
  | .jstr s => s
  | v => pyRepr v

/-! Regex engine.  `agent.py` applies four fixed patterns with `re.findall`.
The patterns are encoded as an AST (`Re`) mirroring the pattern strings, and
`mall` enumerates the ways a pattern can match a prefix of the input in
Python's priority order (greedy quantifiers and optionals try the longer
alternative first), so that the head of the list is the match Python's
backtracking engine produces.  `fuel` only bounds recursion depth; callers
pass `length + 1000`, far above the engine's actual depth
(AST depth + bounded-repeat unrolling + one per consumed character). -/

/-- Regex AST: character class, literal, concatenation, alternation,
greedy optional, greedy bounded repeat, greedy one-or-more, word boundary. -/
inductive Re where
  | cls (p : Char → Bool)
  | lit (cs : List Char)
  | seq (a b : Re)
  | alt (a b : Re)
  | opt (a : Re)
  | rep (a : Re) (lo hi : Nat)
  | plus (a : Re)
  | wb

/-- Python `\w` (ASCII range; inputs of interest are ASCII). -/
def wordChar (c : Char) : Bool := c.isAlphanum || c = '_'

/-- Word/non-word test on an optional character (string edge = non-word). -/
def isWordOpt : Option Char → Bool
  | some c => wordChar c
  | none => false

/-- Python `\b`: the two sides differ in wordness. -/
def atBoundary (prev next : Option Char) : Bool := isWordOpt prev != isWordOpt next

/-- Match a literal character sequence. -/
def matchLit (cs : List Char) (prev : Option Char) (s : List Char) :
    Option (Option Char × List Char) :=
  match cs, s with
  | [], _ => some (prev, s)
  | _ :: _, [] => none
  | c :: cs2, x :: xs => if c = x then matchLit cs2 (some x) xs else none

/-- Enumerate the suffixes (with the character preceding each suffix, for
`\b`) left after `r` matches a prefix of `s`, in Python's backtracking
priority order. -/
def mall : Nat → Re → Option Char → List Char → List (Option Char × List Char)
  | 0, _, _, _ => []
  | _ + 1, .cls _, _, [] => []
  | _ + 1, .cls p, _, c :: rest => if p c then [(some c, rest)] else []
  | _ + 1, .lit cs, prev, s =>
    match matchLit cs prev s with
    | some pr => [pr]
    | none => []
  | fuel + 1, .seq a b, prev, s =>
    (mall fuel a prev s).flatMap (fun pr => mall fuel b pr.1 pr.2)
  | fuel + 1, .alt a b, prev, s => mall fuel a prev s ++ mall fuel b prev s
  | fuel + 1, .opt a, prev, s => mall fuel a prev s ++ [(prev, s)]
  | fuel + 1, .rep a lo hi, prev, s =>
    match lo, hi with
    | 0, 0 => [(prev, s)]
    | 0, h + 1 =>
      ((mall fuel a prev s).flatMap (fun pr => mall fuel (.rep a 0 h) pr.1 pr.2)) ++
        [(prev, s)]
    | _ + 1, 0 => []
    | l + 1, h + 1 =>
      (mall fuel a prev s).flatMap (fun pr => mall fuel (.rep a l h) pr.1 pr.2)
  | fuel + 1, .plus a, prev, s =>
    (mall fuel a prev s).flatMap (fun pr =>
      if pr.2.length < s.length then mall fuel (.plus a) pr.1 pr.2 ++ [pr] else [pr])
  | _ + 1, .wb, prev, s => if atBoundary prev s.head? then [(prev, s)] else []

/-- Length of the leftmost match of `r` at the head of `s` (Python's choice),
if any. -/
def matchHere (r : Re) (prev : Option Char) (s : List Char) : Option Nat :=
  (mall (s.length + 1000) r prev s).head?.map (fun pr => s.length - pr.2.length)

/-- Python `re.findall(r, s)` driver: scan left to right, emit each
non-overlapping leftmost match and resume after it. -/
def scanAll (r : Re) : Nat → Option Char → List Char → List String
  | 0, _, _ => []
  | _ + 1, _, [] => []
  | fuel + 1, prev, c :: rest =>
    match matchHere r prev (c :: rest) with
    | some (n + 1) =>
      chStr ((c :: rest).take (n + 1)) ::
        scanAll r fuel (((c :: rest).take (n + 1)).getLast?) ((c :: rest).drop (n + 1))
    | _ => scanAll r fuel (some c) rest

/-- Python `re.findall(r, s)` (all four source patterns have the whole match
as the reported group). -/
def findall (r : Re) (s : String) : List String :=
  scanAll r ((strChars s).length + 1) none (strChars s)

/-- Character class `[a-zA-Z0-9.\-_]` of the UPI pattern. -/
def upiLocalChar (c : Char) : Bool := c.isAlphanum || c = '.' || c = '-' || c = '_'

/-- Character class `[-\w.]` of the URL pattern. -/
def urlBodyChar (c : Char) : Bool := c = '-' || wordChar c || c = '.'

/-- Character class `[\da-fA-F]` (hex digit) of the URL pattern. -/
def hexChar (c : Char) : Bool :=
  c.isDigit || ('a' ≤ c ∧ c ≤ 'f') || ('A' ≤ c ∧ c ≤ 'F')

/-- Character class `[- ]` (separator) of the phone pattern. -/
def sepChar (c : Char) : Bool := c = '-' || c = ' '

/-- `agent.py` line 98: `upi_pattern = r'[a-zA-Z0-9.\-_]{2,256}@[a-zA-Z]{2,64}'`. -/
def re_upi : Re :=
  .seq (.rep (.cls upiLocalChar) 2 256)
    (.seq (.lit ['@']) (.rep (.cls Char.isAlpha) 2 64))

/-- `agent.py` line 99:
`url_pattern = r'(https?://(?:[-\w.]|(?:%[\da-fA-F]{2}))+)'`. -/
def re_url : Re :=
  .seq (.lit (strChars "http"))
    (.seq (.opt (.lit ['s']))
      (.seq (.lit (strChars "://"))
        (.plus (.alt (.cls urlBodyChar)
          (.seq (.lit ['%']) (.rep (.cls hexChar) 2 2))))))

/-- `agent.py` line 100: `bank_pattern = r'\b\d{9,18}\b'`. -/
def re_bank : Re := .seq .wb (.seq (.rep (.cls Char.isDigit) 9 18) .wb)

/-- `agent.py` line 101: `phone_pattern =
r'\b(?:\+?\d{1,3}[- ]?)?\(?\d{3}\)?[- ]?\d{3}[- ]?\d{4}\b'`. -/
def re_phone : Re :=
  .seq .wb
    (.seq (.opt (.seq (.opt (.lit ['+']))
            (.seq (.rep (.cls Char.isDigit) 1 3) (.opt (.cls sepChar)))))
      (.seq (.opt (.lit ['(']))
        (.seq (.rep (.cls Char.isDigit) 3 3)
          (.seq (.opt (.lit [')']))
            (.seq (.opt (.cls sepChar))
              (.seq (.rep (.cls Char.isDigit) 3 3)
                (.seq (.opt (.cls sepChar))
                  (.seq (.rep (.cls Char.isDigit) 4 4) .wb))))))))

/-! Embedding of `agent.py` (`ScamAgent`).  The OpenRouter call
`_call_llm_api` posts a list of role/content messages and yields
`response["choices"][0]["message"]["content"]`; it is abstracted as a
function from the message list to `Except Unit String`, `.error` covering
every raising failure mode (unset key, network, HTTP error status, missing
response fields). -/

/-- One entry of the `messages` payload.  `content` is a `Json` value because
`main.py` can feed non-string request fields through to the payload. -/
structure ChatMsg where
  role : String
  content : Json
deriving DecidableEq

/-- Outcome of `_call_llm_api` as a function of the submitted messages. -/
abbrev Provider := List ChatMsg → Except Unit String

/-- One conversation turn as read by `agent.py` (`m["sender"]`, `m["text"]`;
the `timestamp` field of the request schema is never read by the code). -/
structure Turn where
  sender : String
  text : String
deriving DecidableEq

/-- Classification prompt of `detect_scam` (`agent.py` lines 42-47). -/
def detectPrompt (message : String) : String :=
  "\n        Analyze the following message for scam intent. \n        Context: UPI fraud, bank fraud, phishing, fake offers.\n        Message: \"" ++
    message ++
  "\"\n        Respond with ONLY 'true' or 'false'.\n        "

/-- Messages submitted by `detect_scam` (`agent.py` lines 48-51): a fixed
system message and the classification prompt.  The `history` argument is not
used. -/
def detectMessages (message : String) : List ChatMsg :=
  [⟨"system", .jstr "You are a scam detection expert."⟩,
   ⟨"user", .jstr (detectPrompt message)⟩]

/-- Keyword table of the `detect_scam` fallback (`agent.py` line 58). -/
def scamKeywords : List String :=
  ["verify", "blocked", "suspended", "upi", "win", "gift", "account"]

/-- `ScamAgent.detect_scam` (`agent.py` lines 41-59) for a string message.
On provider success the result is `content.strip().lower() == 'true'`; on any
raising provider failure the except-branch returns the keyword fallback
`any(k in message.lower() for k in keywords)`. -/
def detect_scam (provider : Provider) (message : String) (history : List Turn) : Bool :=
  match provider (detectMessages message) with
  | .ok content => pyLower (pyStrip content) == "true"
  | .error _ => scamKeywords.any (fun k => pyIn k (pyLower message))

/-- `ScamAgent.detect_scam` as invoked by `main.py` with a request-supplied
`text` that may be any JSON value.  The prompt interpolates `str(text)`; the
keyword fallback calls `message.lower()`, which raises `AttributeError`
(propagated to the caller) when `text` is not a string. -/
def detect_scamJ (provider : Provider) (text : Json) (history : List Json) :
    Except Unit Bool :=
  match provider (detectMessages (pyStr text)) with
  | .ok content => .ok (pyLower (pyStrip content) == "true")
  | .error _ =>
    match text with
    | .jstr s => .ok (scamKeywords.any (fun k => pyIn k (pyLower s)))
    | _ => .error ()

/-- Persona system prompt of `generate_response` (`agent.py` lines 63-78),
with `metadata.get('channel', 'SMS')`, `('language', 'English')`,
`('locale', 'IN')` interpolated. -/
def respondSystemPrompt (metadata : JsonFields) : String :=
  "\n            You are a human target of a potential scammer. \n            Your goal is to be a 'believable human persona' who is slightly confused, worried, but cooperative.\n            DO NOT reveal you are an AI or that you suspect a scam.\n            Engage the scammer to keep them talking. \n            Ask questions that might lead them to reveal bank details, UPI IDs, or links.\n            Channel: " ++
    pyStr ((jget metadata "channel").getD (.jstr "SMS")) ++
  "\n            Language: " ++
    pyStr ((jget metadata "language").getD (.jstr "English")) ++
  "\n            Locale: " ++
    pyStr ((jget metadata "locale").getD (.jstr "IN")) ++
  "\n\n            IMPORTANT: \n            1. Provide ONLY your next single message in the conversation.\n            2. DO NOT write a script or dialogue for both sides.\n            3. DO NOT include labels like 'You:' or 'Agent:'.\n            4. Keep it short and realistic for the channel (e.g. 1-2 sentences for SMS).\n            "

/-- Fixed fallback reply of `generate_response` (`agent.py` line 92). -/
def genericReply : String := "I'm sorry, I don't understand. What do I need to do exactly?"

/-- Messages submitted by `generate_response` (`agent.py` lines 62-85) for a
well-typed transcript: the persona system prompt, then each history turn with
the role `assistant` when `sender == 'user'` (the engaging persona /
counterparty) and `user` otherwise (the scammer / subject), then the new
incoming message in the `user` role. -/
def respondMessages (message : String) (history : List Turn) (metadata : JsonFields) :
    List ChatMsg :=
  ⟨"system", .jstr (respondSystemPrompt metadata)⟩ ::
    (history.map (fun t =>
      ⟨if t.sender = "user" then "assistant" else "user", .jstr t.text⟩) ++
     [⟨"user", .jstr message⟩])

/-- `ScamAgent.generate_response` (`agent.py` lines 61-92) for a well-typed
transcript: provider reply stripped, or the fixed generic reply on any
raising provider failure. -/
def generate_response (provider : Provider) (message : String) (history : List Turn)
    (metadata : JsonFields) : String :=
  match provider (respondMessages message history metadata) with
  | .ok content => pyStrip content
  | .error _ => genericReply

/-- `ScamAgent.generate_response` as invoked by `main.py` on raw request
values.  Prompt construction happens before the guarded provider call:
`metadata.get` raises when `metadata` is not a dict, and
`msg_item["sender"]` / `msg_item["text"]` raise when a history item is not a
dict with both keys; those errors propagate to the caller.  The comparison
`msg_item["sender"] == 'user'` is `False` (without raising) for non-string
senders. -/
def generate_responseJ (provider : Provider) (text : Json) (history : List Json)
    (metadata : Json) : Except Unit String := do
  let mfs ← match metadata with
    | .jobj fs => Except.ok fs
    | _ => Except.error ()
  let hmsgs ← history.mapM (fun item =>
    match item with
    | .jobj ifs =>
      match jget ifs "sender", jget ifs "text" with
      | some sv, some tv =>
        Except.ok (⟨if sv = .jstr "user" then "assistant" else "user", tv⟩ : ChatMsg)
      | _, _ => Except.error ()
    | _ => Except.error ())
  let messages := ⟨"system", .jstr (respondSystemPrompt mfs)⟩ ::
    (hmsgs ++ [(⟨"user", text⟩ : ChatMsg)])
  match provider messages with
  | .ok content => .ok (pyStrip content)
  | .error _ => .ok genericReply

/-! Embedding of `ScamAgent.extract_intelligence` (`agent.py` lines 94-170). -/

/-- The `intel` dict during `extract_intelligence`: the five set-valued keys
are always present (initialised at lines 103-109); `agentNotes` is absent
until assigned, hence an `Option`. -/
structure IntelDraft where
  bankAccounts : Finset Json
  upiIds : Finset Json
  phishingLinks : Finset Json
  phoneNumbers : Finset Json
  suspiciousKeywords : Finset Json
  agentNotes : Option Json
deriving DecidableEq

/-- The returned record: after the final safety check (`agent.py` lines
163-168) all six keys are present. -/
structure IntelRecord where
  bankAccounts : Finset Json
  upiIds : Finset Json
  phishingLinks : Finset Json
  phoneNumbers : Finset Json
  suspiciousKeywords : Finset Json
  agentNotes : Json
deriving DecidableEq

/-- `agent.py` line 95: `full_text = " ".join([m["text"] for m in history] +
[message])` for a well-typed transcript. -/
def fullText (message : String) (history : List Turn) : String :=
  spaceJoin (history.map Turn.text ++ [message])

/-- Deterministic pattern pass (`agent.py` lines 97-109): the four
`re.findall` results as deduplicated sets, `suspiciousKeywords` empty, no
`agentNotes` yet. -/
def detDraft (full_text : String) : IntelDraft :=
  { bankAccounts := ((findall re_bank full_text).map Json.jstr).toFinset,
    upiIds := ((findall re_upi full_text).map Json.jstr).toFinset,
    phishingLinks := ((findall re_url full_text).map Json.jstr).toFinset,
    phoneNumbers := ((findall re_phone full_text).map Json.jstr).toFinset,
    suspiciousKeywords := ∅,
    agentNotes := none }

/-- Extraction prompt (`agent.py` lines 112-130) with `full_text`
interpolated. -/
def extractPrompt (full_text : String) : String :=
  "\n        Analyze this conversation transcript for scam intelligence:\n        \"" ++
    full_text ++
  "\"\n\n        Your tasks:\n        1. Identify Intent: Is the scammer trying to create urgency, ask for sensitive data, or offering something too good to be true?\n        2. Generic Extraction: Extract any names of banks, financial apps (like UPI, WhatsApp, YONO), or specific types of sensitive data requested (OTP, CVV, PIN, passwords).\n        3. Dynamic Keyword Logic: Identify any specific words or phrases that convey pressure, fear, or excitement as 'suspiciousKeywords'.\n\n        Return ONLY a raw JSON object with these exact keys: \n        bankAccounts (list), \n        upiIds (list), \n        phishingLinks (list), \n        phoneNumbers (list), \n        suspiciousKeywords (list), \n        agentNotes (string summary: include the intent identified and any financial entities/apps found).\n\n        DO NOT include any explanation or markdown formatting like ```json.\n        "

/-- Messages submitted by the model-augmented pass (`agent.py` line 131). -/
def extractMessages (full_text : String) : List ChatMsg :=
  [⟨"user", .jstr (extractPrompt full_text)⟩]

/-- `agent.py` line 139: `re.search(r'(\{.*\})', content, re.DOTALL)` — with
`re.DOTALL` and a greedy `.*` this is the span from the first brace-open to
the last brace-close, when the close comes later. -/
def jsonSpan (s : String) : Option String :=
  let cs := strChars s
  match cs.findIdx? (· = '\x7b'), cs.reverse.findIdx? (· = '\x7d') with
  | some i, some jr =>
    let j := cs.length - 1 - jr
    if i < j then some (chStr ((cs.drop i).take (j - i + 1))) else none
  | _, _ => none

/-- Content handed to `json.loads` (`agent.py` lines 135-141): the provider
output stripped, narrowed (and re-stripped) to the outermost brace span when
one is found. -/
def modelContent (raw : String) : String :=
  let content0 := pyStrip raw
  match jsonSpan content0 with
  | some g => pyStrip g
  | none => content0

/-- One merge assignment `intel[k] = list(set(intel[k] + llm_intel.get(k, [])))`
(`agent.py` lines 152-156).  An absent key contributes the default `[]`; a
present non-list value raises `TypeError` at `+`; a list containing an
unhashable element raises `TypeError` at `set()`; either error leaves the
field unassigned. -/
def setMergeVal (cur : Finset Json) (v : Option Json) : Except Unit (Finset Json) :=
  match v with
  | none => .ok cur
  | some (.jarr xs) =>
    if xs.toList.all Json.hashable then .ok (cur ∪ xs.toList.toFinset)
    else .error ()
  | some _ => .error ()

/-- Default `agentNotes` of the merge step (`agent.py` line 157). -/
def mergeNotesDefault : String := "Scammer is engaging."

/-- The merge block (`agent.py` lines 151-157), executed statement by
statement in source order; an exception stops the block, keeping the
assignments already made, and reports `true` in the second component. -/
def mergeLLM (d : IntelDraft) (fs : JsonFields) : IntelDraft × Bool :=
  match setMergeVal d.bankAccounts (jget fs "bankAccounts") with
  | .error _ => (d, true)
  | .ok b1 =>
    let d := { d with bankAccounts := b1 }
    match setMergeVal d.upiIds (jget fs "upiIds") with
    | .error _ => (d, true)
    | .ok u1 =>
      let d := { d with upiIds := u1 }
      match setMergeVal d.phishingLinks (jget fs "phishingLinks") with
      | .error _ => (d, true)
      | .ok p1 =>
        let d := { d with phishingLinks := p1 }
        match setMergeVal d.phoneNumbers (jget fs "phoneNumbers") with
        | .error _ => (d, true)
        | .ok n1 =>
          let d := { d with phoneNumbers := n1 }
          match setMergeVal d.suspiciousKeywords (jget fs "suspiciousKeywords") with
          | .error _ => (d, true)
          | .ok k1 =>
            let d := { d with suspiciousKeywords := k1 }
            let notes := some ((jget fs "agentNotes").getD (.jstr mergeNotesDefault))
            ({ d with agentNotes := notes }, false)

/-- Default `agentNotes` of the except branch (`agent.py` line 161). -/
def failNotes : String := "Manual extraction used due to API error or malformed LLM response."

/-- Except branch of the model-augmented pass (`agent.py` lines 158-161):
`if "agentNotes" not in intel or not intel["agentNotes"]`, assign the fixed
failure default. -/
def exceptFixup (d : IntelDraft) : IntelDraft :=
  match d.agentNotes with
  | none => { d with agentNotes := some (.jstr failNotes) }
  | some v => if pyTruthy v then d else { d with agentNotes := some (.jstr failNotes) }

/-- Default `agentNotes` of the final safety check (`agent.py` line 168). -/
def ongoingNotes : String := "Engagement ongoing."

/-- Final safety check (`agent.py` lines 163-168): the five set keys are
always present in the draft by construction; an absent `agentNotes` becomes
the fixed default. -/
def finalize (d : IntelDraft) : IntelRecord :=
  { bankAccounts := d.bankAccounts,
    upiIds := d.upiIds,
    phishingLinks := d.phishingLinks,
    phoneNumbers := d.phoneNumbers,
    suspiciousKeywords := d.suspiciousKeywords,
    agentNotes := d.agentNotes.getD (.jstr ongoingNotes) }

/-- Body of `extract_intelligence` from `full_text` on (`agent.py` lines
97-170), also reporting whether the except branch at line 158 ran (the code
logs `"LLM intelligence extraction failed"` exactly then). -/
def extract_core (loads : String → Option Json) (provider : Provider)
    (full_text : String) : IntelRecord × Bool :=
  let d0 := detDraft full_text
  match provider (extractMessages full_text) with
  | .error _ => (finalize (exceptFixup d0), true)
  | .ok raw =>
    match loads (modelContent raw) with
    | none => (finalize (exceptFixup d0), true)
    | some (.jobj fs) =>
      match mergeLLM d0 fs with
      | (d, true) => (finalize (exceptFixup d), true)
      | (d, false) => (finalize d, false)
    | some _ => (finalize d0, false)

/-- `ScamAgent.extract_intelligence` (`agent.py` lines 94-170) for a
well-typed transcript, with the except-branch flag. -/
def extract_intelligence_logged (loads : String → Option Json) (provider : Provider)
    (message : String) (history : List Turn) : IntelRecord × Bool :=
  extract_core loads provider (fullText message history)

/-- `ScamAgent.extract_intelligence` (`agent.py` lines 94-170) for a
well-typed transcript. -/
def extract_intelligence (loads : String → Option Json) (provider : Provider)
    (message : String) (history : List Turn) : IntelRecord :=
  (extract_intelligence_logged loads provider message history).1

/-- `full_text` construction on raw request values (`agent.py` line 95 as
reached from `main.py`): `m["text"]` raises for a non-dict item or a missing
key, and `" ".join` raises `TypeError` when any element (or the message) is
not a string. -/
def fullTextJ (text : Json) (history : List Json) : Except Unit String := do
  let texts ← history.mapM (fun item =>
    match item with
    | .jobj ifs =>
      match jget ifs "text" with
      | some (.jstr s) => Except.ok s
      | some _ => Except.error ()
      | none => Except.error ()
    | _ => Except.error ())
  match text with
  | .jstr s => .ok (spaceJoin (texts ++ [s]))
  | _ => .error ()

/-- `ScamAgent.extract_intelligence` as invoked by `main.py` on raw request
values; an error in `full_text` construction propagates, everything after it
is total. -/
def extract_intelligenceJ (loads : String → Option Json) (provider : Provider)
    (text : Json) (history : List Json) : Except Unit IntelRecord := do
  let ft ← fullTextJ text history
  .ok (extract_core loads provider ft).1

/-! Embedding of the `main.py` endpoint `handle_message_root`.  The raw body
(`await request.json()`) is an `Except Unit Json` (`.error` = unparsable
body); `asyncio.wait_for`'s expiry is the boolean `timedOut`; the
fire-and-forget `background_tasks.add_task(send_guvi_callback, ...)` is the
`Option CallbackPayload` component of the result.  The
`RequestValidationError` handler of `main.py` cannot fire on this route (the
endpoint declares no validated body model). -/

/-- `main.py` line 34. -/
def API_KEY : String := "prajwal_hackathon_key_2310"

/-- Endpoint outcome: the 403 `HTTPException`, or a JSON body
`\x7b"status": ..., "reply": ...\x7d` served with HTTP 200. -/
inductive HandlerResult where
  | httpError (code : Nat)
  | jsonOk (status : String) (reply : String)
deriving DecidableEq

/-- The `extractedIntelligence` sub-object of the callback payload
(`main.py` lines 109-115): exactly the five set-valued keys. -/
structure ExtractedIntelligence where
  bankAccounts : Finset Json
  upiIds : Finset Json
  phishingLinks : Finset Json
  phoneNumbers : Finset Json
  suspiciousKeywords : Finset Json
deriving DecidableEq

/-- The callback payload (`main.py` lines 117-123). -/
structure CallbackPayload where
  sessionId : Json
  scamDetected : Bool
  totalMessagesExchanged : Nat
  extractedIntelligence : ExtractedIntelligence
  agentNotes : Json
deriving DecidableEq

/-- Python `a or b` where `a` is a `dict.get` result (`None` when the key is
absent) and `b` the fallback. -/
def pyOrJ (a : Option Json) (b : Json) : Json :=
  match a with
  | some v => if pyTruthy v then v else b
  | none => b

/-- Request fields after manual extraction (`main.py` lines 71-77). -/
structure ReqFields where
  sessionId : Json
  text : Json
  history : List Json
  metadata : Json
deriving DecidableEq

/-- Manual field extraction (`main.py` lines 71-77).  `body.get` raises
`AttributeError` for a non-dict body, as does `.get('text', "")` on a
non-dict `message` value; both are caught by the outer except.
`conversationHistory` falls back to `[]` when absent, falsy, or not a list. -/
def parseFields (body : Json) : Except Unit ReqFields :=
  match body with
  | .jobj fs =>
    let sessionId := pyOrJ (jget fs "sessionId")
      (pyOrJ (jget fs "sessionID") (.jstr "unknown_session"))
    match (jget fs "message").getD (.jobj .fnil) with
    | .jobj mfs =>
      let text := (jget mfs "text").getD (.jstr "")
      let history : List Json :=
        match jget fs "conversationHistory" with
        | some (.jarr l) => l.toList
        | _ => []
      let metadata := pyOrJ (jget fs "metadata") (.jobj .fnil)
      .ok ⟨sessionId, text, history, metadata⟩
    | _ => .error ()
  | _ => .error ()

/-- Reply returned by the outer except (`main.py` line 139). -/
def troubleReply : String := "I'm having some trouble connecting. Please try again in a moment."

/-- Reply returned by the inner AI-logic except (`main.py` line 134). -/
def confusedReply : String := "I'm sorry, I'm a bit confused. Can you tell me more?"

/-- Reply returned when `detect_scam` is negative (`main.py` line 89). -/
def greetingReply : String := "Hello! How can I help you today?"

/-- Fallback reply on `asyncio.TimeoutError` (`main.py` line 105). -/
def timeoutReply : String := "I'm not sure I understand. Could you please explain what I need to do?"

/-- Fallback intelligence record on timeout (`main.py` line 106). -/
def timeoutIntel : IntelRecord :=
  { bankAccounts := ∅, upiIds := ∅, phishingLinks := ∅, phoneNumbers := ∅,
    suspiciousKeywords := ∅, agentNotes := .jstr "Processing timed out" }

/-- Callback payload construction (`main.py` lines 109-123): the five set
fields are copied into `extractedIntelligence` via `.get` (always present on
an `IntelRecord`), `scamDetected` is the constant `True`,
`totalMessagesExchanged` is `len(history) + 1`, and `agentNotes` sits at top
level (the `.get` default `"Scammer engaged."` is unreachable because the
record always carries the key). -/
def mkCallback (sessionId : Json) (historyLen : Nat) (intel : IntelRecord) :
    CallbackPayload :=
  { sessionId := sessionId,
    scamDetected := true,
    totalMessagesExchanged := historyLen + 1,
    extractedIntelligence :=
      ⟨intel.bankAccounts, intel.upiIds, intel.phishingLinks, intel.phoneNumbers,
       intel.suspiciousKeywords⟩,
    agentNotes := intel.agentNotes }

/-- The thread body of `asyncio.to_thread` (`main.py` lines 99-102):
`extract_intelligence` runs first, then `generate_response`; an exception in
either propagates to the inner except. -/
def aiPair (provider : Provider) (loads : String → Option Json) (f : ReqFields) :
    Except Unit (IntelRecord × String) := do
  let intel ← extract_intelligenceJ loads provider f.text f.history
  let reply ← generate_responseJ provider f.text f.history f.metadata
  .ok (intel, reply)

/-- `handle_message_root` (`main.py` lines 55-139): manual API-key check,
outer try (body parse + field extraction), inner try (detect, bounded-wait
extract+respond, callback scheduling).  Every post-authentication path
returns a `jsonOk "success"` body; the scheduled callback payload (if any)
is the second component. -/
def handle_message_root (provider : Provider) (loads : String → Option Json)
    (timedOut : Bool) (xApiKey : Option String) (rawBody : Except Unit Json) :
    HandlerResult × Option CallbackPayload :=
  if xApiKey ≠ some API_KEY then (.httpError 403, none)
  else
    match rawBody with
    | .error _ => (.jsonOk "success" troubleReply, none)
    | .ok body =>
      match parseFields body with
      | .error _ => (.jsonOk "success" troubleReply, none)
      | .ok f =>
        match detect_scamJ provider f.text f.history with
        | .error _ => (.jsonOk "success" confusedReply, none)
        | .ok false => (.jsonOk "success" greetingReply, none)
        | .ok true =>
          if timedOut then
            (.jsonOk "success" timeoutReply,
             some (mkCallback f.sessionId f.history.length timeoutIntel))
          else
            match aiPair provider loads f with
            | .error _ => (.jsonOk "success" confusedReply, none)
            | .ok (intel, reply) =>
              (.jsonOk "success" reply,
               some (mkCallback f.sessionId f.history.length intel))

/-! Definitions supporting the claim statements, and the concrete inputs used
by counterexamples and witnesses. -/

deriving instance DecidableEq for Except

/-- Well-formedness of one model-pass set value: absent, or a JSON list all
of whose elements are hashable — exactly the condition under which the merge
assignment for that key cannot raise. -/
def wfVal : Option Json → Bool
  | none => true
  | some (.jarr xs) => xs.toList.all Json.hashable
  | some _ => false

/-- The set contributed by one model-pass key: the elements of its list when
present, empty otherwise. -/
def optSet : Option Json → Finset Json
  | some (.jarr xs) => xs.toList.toFinset
  | _ => ∅

/-- Well-formedness of all five set-valued keys of a parsed model output. -/
def wellFormedSets (fs : JsonFields) : Bool :=
  wfVal (jget fs "bankAccounts") && wfVal (jget fs "upiIds") &&
    wfVal (jget fs "phishingLinks") && wfVal (jget fs "phoneNumbers") &&
    wfVal (jget fs "suspiciousKeywords")

/-- Provider that always raises. -/
def witProviderErr : Provider := fun _ => .error ()

/-- Parse function that always fails (malformed model output). -/
def witLoadsNone : String → Option Json := fun _ => none

/-- Model output for the C1 counterexample: valid JSON whose `bankAccounts`
is a well-formed list but whose `upiIds` is the number `5`. -/
def cexRawC1 : String := "\x7b\"bankAccounts\": [\"999888777001\"], \"upiIds\": 5\x7d"

/-- Parsed form of `cexRawC1`. -/
def cexFieldsC1 : JsonFields :=
  .fcons "bankAccounts" (.jarr (.acons (.jstr "999888777001") .anil))
    (.fcons "upiIds" (.jnum 5) .fnil)

/-- Provider returning `cexRawC1`. -/
def cexProviderC1 : Provider := fun _ => .ok cexRawC1

/-- `json.loads` behaviour on `cexRawC1`. -/
def cexLoadsC1 : String → Option Json :=
  fun s => if s = cexRawC1 then some (.jobj cexFieldsC1) else none

/-- Model output for the C2 counterexample: valid JSON whose first merged key
(`bankAccounts`) is malformed while `upiIds` is a well-formed list. -/
def cexRawC2 : String := "\x7b\"bankAccounts\": 5, \"upiIds\": [\"joe@upi\"]\x7d"

/-- Parsed form of `cexRawC2`. -/
def cexFieldsC2 : JsonFields :=
  .fcons "bankAccounts" (.jnum 5)
    (.fcons "upiIds" (.jarr (.acons (.jstr "joe@upi") .anil)) .fnil)

/-- Provider returning `cexRawC2`. -/
def cexProviderC2 : Provider := fun _ => .ok cexRawC2

/-- `json.loads` behaviour on `cexRawC2`. -/
def cexLoadsC2 : String → Option Json :=
  fun s => if s = cexRawC2 then some (.jobj cexFieldsC2) else none

/-- Model output for the C6 counterexample: valid JSON carrying an *empty*
`agentNotes` string. -/
def cexRawC6 : String := "\x7b\"agentNotes\": \"\"\x7d"

/-- Parsed form of `cexRawC6`. -/
def cexFieldsC6 : JsonFields := .fcons "agentNotes" (.jstr "") .fnil

/-- Provider returning `cexRawC6`. -/
def cexProviderC6 : Provider := fun _ => .ok cexRawC6

/-- `json.loads` behaviour on `cexRawC6`. -/
def cexLoadsC6 : String → Option Json :=
  fun s => if s = cexRawC6 then some (.jobj cexFieldsC6) else none

/-- Well-formed model output used by success-path witnesses. -/
def witRawOk : String :=
  "\x7b\"suspiciousKeywords\": [\"urgent\"], \"agentNotes\": \"Job scam.\"\x7d"

/-- Parsed form of `witRawOk`. -/
def witFieldsOk : JsonFields :=
  .fcons "suspiciousKeywords" (.jarr (.acons (.jstr "urgent") .anil))
    (.fcons "agentNotes" (.jstr "Job scam.") .fnil)

/-- Provider returning `witRawOk`. -/
def witProviderOk : Provider := fun _ => .ok witRawOk

/-- `json.loads` behaviour on `witRawOk`. -/
def witLoadsOk : String → Option Json :=
  fun s => if s = witRawOk then some (.jobj witFieldsOk) else none

/-- Request body used by the endpoint witnesses (a scam-positive message via
the keyword fallback, with an empty history list). -/
def witBodyFields : JsonFields :=
  .fcons "sessionId" (.jstr "s1")
    (.fcons "message" (.jobj (.fcons "text" (.jstr "win") .fnil))
      (.fcons "conversationHistory" (.jarr .anil) .fnil))

/-- The witness request body as a JSON value. -/
def witBody : Json := .jobj witBodyFields

/-- The fields `parseFields` extracts from `witBody`. -/
def witReq : ReqFields := ⟨.jstr "s1", .jstr "win", [], .jobj .fnil⟩

/-- History used by the respond witness: one counterparty turn (sender tag
`"user"`), one subject turn (sender tag `"scammer"`). -/
def witHist : List Turn := [⟨"user", "hello"⟩, ⟨"scammer", "pay"⟩]

/-! Helper lemmas. -/

/-- A well-formed model-pass value merges into a field as the deduplicated
union. -/
theorem setMergeVal_wf (cur : Finset Json) (v : Option Json) (hv : wfVal v = true) :
    setMergeVal cur v = .ok (cur ∪ optSet v) := by
  cases v with
  | none => simp [setMergeVal, optSet]
  | some j =>
    cases j with
    | jarr xs =>
      simp only [wfVal] at hv
      simp [setMergeVal, optSet, hv]
    | jnull => simp [wfVal] at hv
    | jbool b => simp [wfVal] at hv
    | jnum n => simp [wfVal] at hv
    | jstr s => simp [wfVal] at hv
    | jobj g => simp [wfVal] at hv

/-- When the five set-valued keys of the parsed model output are well formed,
the merge block completes, each field becoming the union, and `agentNotes`
the model value (or the merge default when absent). -/
theorem mergeLLM_wf (d : IntelDraft) (fs : JsonFields) (h : wellFormedSets fs = true) :
    mergeLLM d fs =
      ({ bankAccounts := d.bankAccounts ∪ optSet (jget fs "bankAccounts"),
         upiIds := d.upiIds ∪ optSet (jget fs "upiIds"),
         phishingLinks := d.phishingLinks ∪ optSet (jget fs "phishingLinks"),
         phoneNumbers := d.phoneNumbers ∪ optSet (jget fs "phoneNumbers"),
         suspiciousKeywords := d.suspiciousKeywords ∪ optSet (jget fs "suspiciousKeywords"),
         agentNotes := some ((jget fs "agentNotes").getD (.jstr mergeNotesDefault)) },
       false) := by
  simp only [wellFormedSets, Bool.and_eq_true] at h
  obtain ⟨⟨⟨⟨h1, h2⟩, h3⟩, h4⟩, h5⟩ := h
  simp [mergeLLM, setMergeVal_wf _ _ h1, setMergeVal_wf _ _ h2, setMergeVal_wf _ _ h3,
    setMergeVal_wf _ _ h4, setMergeVal_wf _ _ h5]

/-- The except branch on a draft with no `agentNotes` assigns the failure
default. -/
theorem exceptFixup_none (d : IntelDraft) (hd : d.agentNotes = none) :
    exceptFixup d = { d with agentNotes := some (.jstr failNotes) } := by
  simp [exceptFixup, hd]

/-! Claim theorems. -/

/-- C1 (amended): for every transcript, whenever the model-augmented pass of
`extract_intelligence` fails before the merge step — the provider raises, or
the located content does not parse as a JSON object (parse failure or a
parsed non-object) — the returned record equals the deterministic-pattern
pass on all five set fields and carries one of the two fixed default
`agentNotes`; the error is never propagated (the embedding is total). -/
theorem extract_model_pass_failure_deterministic
    (loads : String → Option Json) (provider : Provider)
    (message : String) (history : List Turn)
    (hfail : ∀ raw fs, provider (extractMessages (fullText message history)) = .ok raw →
      loads (modelContent raw) ≠ some (.jobj fs)) :
    (extract_intelligence loads provider message history).bankAccounts =
        (detDraft (fullText message history)).bankAccounts ∧
    (extract_intelligence loads provider message history).upiIds =
        (detDraft (fullText message history)).upiIds ∧
    (extract_intelligence loads provider message history).phishingLinks =
        (detDraft (fullText message history)).phishingLinks ∧
    (extract_intelligence loads provider message history).phoneNumbers =
        (detDraft (fullText message history)).phoneNumbers ∧
    (extract_intelligence loads provider message history).suspiciousKeywords =
        (detDraft (fullText message history)).suspiciousKeywords ∧
    ((extract_intelligence loads provider message history).agentNotes = .jstr failNotes ∨
     (extract_intelligence loads provider message history).agentNotes = .jstr ongoingNotes) := by
  unfold extract_intelligence extract_intelligence_logged extract_core
  split
  · exact ⟨rfl, rfl, rfl, rfl, rfl, Or.inl rfl⟩
  · rename_i raw hp
    split
    · exact ⟨rfl, rfl, rfl, rfl, rfl, Or.inl rfl⟩
    · rename_i fs hl
      exact absurd hl (hfail raw fs hp)
    · exact ⟨rfl, rfl, rfl, rfl, rfl, Or.inr rfl⟩

/-- C1 witness: a raising provider with a concrete transcript. -/
theorem extract_model_pass_failure_deterministic_witness :
    (extract_intelligence witLoadsNone witProviderErr "hey" []).bankAccounts =
        (detDraft (fullText "hey" [])).bankAccounts ∧
    (extract_intelligence witLoadsNone witProviderErr "hey" []).upiIds =
        (detDraft (fullText "hey" [])).upiIds ∧
    (extract_intelligence witLoadsNone witProviderErr "hey" []).phishingLinks =
        (detDraft (fullText "hey" [])).phishingLinks ∧
    (extract_intelligence witLoadsNone witProviderErr "hey" []).phoneNumbers =
        (detDraft (fullText "hey" [])).phoneNumbers ∧
    (extract_intelligence witLoadsNone witProviderErr "hey" []).suspiciousKeywords =
        (detDraft (fullText "hey" [])).suspiciousKeywords ∧
    ((extract_intelligence witLoadsNone witProviderErr "hey" []).agentNotes = .jstr failNotes ∨
     (extract_intelligence witLoadsNone witProviderErr "hey" []).agentNotes = .jstr ongoingNotes) :=
  extract_model_pass_failure_deterministic witLoadsNone witProviderErr "hey" []
    (fun _ _ hp => Except.noConfusion hp)

/-- C1 counterexample: the claim's universal reading ("fails for *any*
reason") is false — a model output that parses as a JSON object whose
`bankAccounts` is a well-formed list but whose `upiIds` is the number `5`
raises `TypeError` mid-merge (the except branch runs, second component
`true`), yet the returned `bankAccounts` already contains the model's entry
and so differs from the deterministic-pattern-only result. -/
theorem extract_partial_merge_cex :
    (extract_intelligence_logged cexLoadsC1 cexProviderC1 "hello" []).2 = true ∧
    (extract_intelligence cexLoadsC1 cexProviderC1 "hello" []).agentNotes = .jstr failNotes ∧
    Json.jstr "999888777001" ∈ (extract_intelligence cexLoadsC1 cexProviderC1 "hello" []).bankAccounts ∧
    (extract_intelligence cexLoadsC1 cexProviderC1 "hello" []).bankAccounts ≠
      (detDraft (fullText "hello" [])).bankAccounts := by decide

/-- C2 (amended): for every transcript whose model-augmented pass parses to a
JSON object in which every one of the five set-valued keys, when present, is
a list of hashable values, every set field of the result is the deduplicated
union of the deterministic-pattern pass and the model pass (an absent key
leaves the deterministic result untouched; with no matches on either side
the field is empty, never missing — the record carries all five fields by
construction). -/
theorem extract_merge_union
    (loads : String → Option Json) (provider : Provider)
    (message : String) (history : List Turn) (raw : String) (fs : JsonFields)
    (hok : provider (extractMessages (fullText message history)) = .ok raw)
    (hparse : loads (modelContent raw) = some (.jobj fs))
    (hwf : wellFormedSets fs = true) :
    (extract_intelligence loads provider message history).bankAccounts =
        (detDraft (fullText message history)).bankAccounts ∪ optSet (jget fs "bankAccounts") ∧
    (extract_intelligence loads provider message history).upiIds =
        (detDraft (fullText message history)).upiIds ∪ optSet (jget fs "upiIds") ∧
    (extract_intelligence loads provider message history).phishingLinks =
        (detDraft (fullText message history)).phishingLinks ∪ optSet (jget fs "phishingLinks") ∧
    (extract_intelligence loads provider message history).phoneNumbers =
        (detDraft (fullText message history)).phoneNumbers ∪ optSet (jget fs "phoneNumbers") ∧
    (extract_intelligence loads provider message history).suspiciousKeywords =
        (detDraft (fullText message history)).suspiciousKeywords ∪ optSet (jget fs "suspiciousKeywords") := by
  unfold extract_intelligence extract_intelligence_logged extract_core
  simp only [hok, hparse, mergeLLM_wf _ _ hwf]
  exact ⟨rfl, rfl, rfl, rfl, rfl⟩

/-- C2 witness: a provider returning a well-formed model output over a
concrete transcript. -/
theorem extract_merge_union_witness :
    (extract_intelligence witLoadsOk witProviderOk "hey" []).bankAccounts =
        (detDraft (fullText "hey" [])).bankAccounts ∪ optSet (jget witFieldsOk "bankAccounts") ∧
    (extract_intelligence witLoadsOk witProviderOk "hey" []).upiIds =
        (detDraft (fullText "hey" [])).upiIds ∪ optSet (jget witFieldsOk "upiIds") ∧
    (extract_intelligence witLoadsOk witProviderOk "hey" []).phishingLinks =
        (detDraft (fullText "hey" [])).phishingLinks ∪ optSet (jget witFieldsOk "phishingLinks") ∧
    (extract_intelligence witLoadsOk witProviderOk "hey" []).phoneNumbers =
        (detDraft (fullText "hey" [])).phoneNumbers ∪ optSet (jget witFieldsOk "phoneNumbers") ∧
    (extract_intelligence witLoadsOk witProviderOk "hey" []).suspiciousKeywords =
        (detDraft (fullText "hey" [])).suspiciousKeywords ∪ optSet (jget witFieldsOk "suspiciousKeywords") :=
  extract_merge_union witLoadsOk witProviderOk "hey" [] witRawOk witFieldsOk
    rfl (by decide) (by decide)

/-- C2 counterexample: with a successfully parsed model object whose *first*
merged key (`bankAccounts`) is malformed, the merge aborts before `upiIds`,
so the returned `upiIds` is not the union of the deterministic pass and the
model pass's well-formed `upiIds` list. -/
theorem extract_union_dropped_cex :
    cexLoadsC2 (modelContent cexRawC2) = some (.jobj cexFieldsC2) ∧
    jget cexFieldsC2 "upiIds" = some (.jarr (.acons (.jstr "joe@upi") .anil)) ∧
    (extract_intelligence cexLoadsC2 cexProviderC2 "hi" []).upiIds ≠
      (detDraft (fullText "hi" [])).upiIds ∪ optSet (jget cexFieldsC2 "upiIds") := by decide

/-- C3 (amended): the keyword fallback of `detect_scam` is taken exactly when
the provider call raises (network, auth, quota, missing response fields):
then the result is the case-insensitive substring match of the message
against the fixed keyword set, and no exception escapes (the embedding is
total).  Non-boolean provider *text* does not trigger the fallback; it simply
compares unequal to `'true'`. -/
theorem detect_provider_error_fallback (provider : Provider) (message : String)
    (history : List Turn)
    (herr : provider (detectMessages message) = .error ()) :
    detect_scam provider message history =
      scamKeywords.any (fun k => pyIn k (pyLower message)) := by
  unfold detect_scam
  rw [herr]

/-- C3 witness: a raising provider on a keyword-bearing message. -/
theorem detect_provider_error_fallback_witness :
    detect_scam witProviderErr "free gift" [] =
      scamKeywords.any (fun k => pyIn k (pyLower "free gift")) ∧
    detect_scam witProviderErr "free gift" [] = true :=
  ⟨detect_provider_error_fallback witProviderErr "free gift" [] rfl, by decide⟩

/-- C3 counterexample: when the provider *succeeds* with output that is not a
boolean literal (`"maybe"`), `detect_scam` returns `false` without consulting
the keyword fallback, although the keyword match on the message is `true` —
so malformed output is not treated as a failure, contrary to the claim. -/
theorem detect_nonboolean_output_cex :
    detect_scam (fun _ => Except.ok "maybe") "win a gift" [] = false ∧
    scamKeywords.any (fun k => pyIn k (pyLower "win a gift")) = true := by decide

/-- C4 (confirmed): for every request whose shared-secret header matches
exactly, `handle_message_root` returns a success-shaped body
(`status = "success"` with a string reply, served as HTTP 200), whatever the
body parse, field extraction, detection, timeout or pipeline outcome; a
header mismatch is the only non-200 rejection (403, issued before any
processing, with no callback scheduled). -/
theorem endpoint_success_shape (provider : Provider) (loads : String → Option Json)
    (timedOut : Bool) (xApiKey : Option String) (rawBody : Except Unit Json) :
    (xApiKey = some API_KEY →
      ∃ r, (handle_message_root provider loads timedOut xApiKey rawBody).1 =
        .jsonOk "success" r) ∧
    (xApiKey ≠ some API_KEY →
      handle_message_root provider loads timedOut xApiKey rawBody =
        (.httpError 403, none)) := by
  constructor
  · intro hk
    subst hk
    unfold handle_message_root
    rw [if_neg (fun h => h rfl)]
    cases rawBody with
    | error e => exact ⟨troubleReply, rfl⟩
    | ok body =>
      try dsimp only
      cases hpf : parseFields body with
      | error e => exact ⟨troubleReply, rfl⟩
      | ok f =>
        try dsimp only
        cases hd : detect_scamJ provider f.text f.history with
        | error e => exact ⟨confusedReply, rfl⟩
        | ok b =>
          try dsimp only
          cases b with
          | false => exact ⟨greetingReply, rfl⟩
          | true =>
            try dsimp only
            cases timedOut with
            | true => exact ⟨timeoutReply, rfl⟩
            | false =>
              try dsimp only
              cases hai : aiPair provider loads f with
              | error e => exact ⟨confusedReply, rfl⟩
              | ok pr => exact ⟨pr.2, rfl⟩
  · intro hk
    unfold handle_message_root
    rw [if_pos hk]

/-- C4 witness: a matching header on an unparsable body yields a
success-shaped reply; a missing header is rejected with 403 and no callback. -/
theorem endpoint_success_shape_witness :
    (∃ r, (handle_message_root witProviderErr witLoadsNone false (some API_KEY)
        (.error ())).1 = .jsonOk "success" r) ∧
    handle_message_root witProviderErr witLoadsNone false none (.error ()) =
      (.httpError 403, none) :=
  ⟨(endpoint_success_shape witProviderErr witLoadsNone false (some API_KEY) (.error ())).1 rfl,
   (endpoint_success_shape witProviderErr witLoadsNone false none (.error ())).2 (by decide)⟩

/-- C5 (confirmed): for every scam-positive request on which the bounded wait
for the combined Extractor+Responder invocation expires, the request still
succeeds: the reply is the fixed timeout-fallback string and the scheduled
callback carries an empty intelligence record (all five set fields empty)
whose `agentNotes` is `"Processing timed out"`. -/
theorem endpoint_timeout_defaults (provider : Provider) (loads : String → Option Json)
    (body : Json) (f : ReqFields)
    (hp : parseFields body = .ok f)
    (hd : detect_scamJ provider f.text f.history = .ok true) :
    (handle_message_root provider loads true (some API_KEY) (.ok body)).1 =
        .jsonOk "success" timeoutReply ∧
    ((handle_message_root provider loads true (some API_KEY) (.ok body)).2).map
        CallbackPayload.extractedIntelligence = some ⟨∅, ∅, ∅, ∅, ∅⟩ ∧
    ((handle_message_root provider loads true (some API_KEY) (.ok body)).2).map
        CallbackPayload.agentNotes = some (.jstr "Processing timed out") := by
  unfold handle_message_root
  rw [if_neg (fun h => h rfl)]
  simp only [hp, hd]
  exact ⟨rfl, rfl, rfl⟩

/-- C5 witness: a keyword-positive request with a raising provider and the
wait expired. -/
theorem endpoint_timeout_defaults_witness :
    (handle_message_root witProviderErr witLoadsNone true (some API_KEY) (.ok witBody)).1 =
        .jsonOk "success" timeoutReply ∧
    ((handle_message_root witProviderErr witLoadsNone true (some API_KEY) (.ok witBody)).2).map
        CallbackPayload.extractedIntelligence = some ⟨∅, ∅, ∅, ∅, ∅⟩ ∧
    ((handle_message_root witProviderErr witLoadsNone true (some API_KEY) (.ok witBody)).2).map
        CallbackPayload.agentNotes = some (.jstr "Processing timed out") :=
  endpoint_timeout_defaults witProviderErr witLoadsNone witBody witReq
    (by decide) (by decide)

/-- C6 (amended): for every transcript whose model-augmented pass parses to a
JSON object with well-formed set fields (so the merge completes), the
returned `agentNotes` is the model pass's `agentNotes` value *verbatim* when
the key is present — even when it is the empty string, `null`, or not a
string at all — and the fixed default `"Scammer is engaging."` when the key
is absent.  (Failure paths use the other fixed defaults; see the C1
theorem.)  The claim's non-emptiness guarantee does not hold. -/
theorem extract_agentNotes_from_model
    (loads : String → Option Json) (provider : Provider)
    (message : String) (history : List Turn) (raw : String) (fs : JsonFields)
    (hok : provider (extractMessages (fullText message history)) = .ok raw)
    (hparse : loads (modelContent raw) = some (.jobj fs))
    (hwf : wellFormedSets fs = true) :
    (extract_intelligence loads provider message history).agentNotes =
      (jget fs "agentNotes").getD (.jstr mergeNotesDefault) := by
  unfold extract_intelligence extract_intelligence_logged extract_core
  simp only [hok, hparse, mergeLLM_wf _ _ hwf]
  rfl

/-- C6 witness: a model pass carrying a non-empty `agentNotes`. -/
theorem extract_agentNotes_from_model_witness :
    (extract_intelligence witLoadsOk witProviderOk "hey" []).agentNotes =
      (jget witFieldsOk "agentNotes").getD (.jstr mergeNotesDefault) ∧
    (extract_intelligence witLoadsOk witProviderOk "hey" []).agentNotes =
      .jstr "Job scam." :=
  ⟨extract_agentNotes_from_model witLoadsOk witProviderOk "hey" [] witRawOk witFieldsOk
     rfl (by decide) (by decide),
   by decide⟩

/-- C6 counterexample: a model pass that returns `agentNotes: ""` is kept
verbatim, so the returned `agentNotes` is the empty string — neither
non-empty nor replaced by a fixed default, contrary to the claim. -/
theorem extract_agentNotes_empty_cex :
    (extract_intelligence cexLoadsC6 cexProviderC6 "hi" []).agentNotes = .jstr "" ∧
    ¬ (∃ s : String,
        (extract_intelligence cexLoadsC6 cexProviderC6 "hi" []).agentNotes = .jstr s ∧
        s ≠ "") := by
  have h : (extract_intelligence cexLoadsC6 cexProviderC6 "hi" []).agentNotes = .jstr "" := by
    decide
  refine ⟨h, ?_⟩
  rintro ⟨s, hs, hne⟩
  rw [h] at hs
  injection hs with h2
  exact hne h2.symm

/-- C7 (confirmed): `generate_response` replays the history to the provider
in order with roles inverted relative to sender — a prior turn whose sender
tag is `"user"` (the engaging persona / counterparty) is presented in the
`assistant` role and any other sender (the scammer / subject, tagged e.g.
`"scammer"`) in the `user` role — the persona system prompt coming first and
the new incoming message appended last in the `user` role. -/
theorem respond_replays_history_inverted (message : String) (history : List Turn)
    (metadata : JsonFields) :
    (respondMessages message history metadata).length = history.length + 2 ∧
    (∀ i : Fin history.length,
      (respondMessages message history metadata)[(i : Nat) + 1]? =
        some ⟨if (history.get i).sender = "user" then "assistant" else "user",
              .jstr (history.get i).text⟩) ∧
    (respondMessages message history metadata)[history.length + 1]? =
      some ⟨"user", .jstr message⟩ := by
  refine ⟨?_, ?_, ?_⟩
  · simp [respondMessages]
  · intro i
    have hi : (i : Nat) < (history.map (fun t =>
        (⟨if t.sender = "user" then "assistant" else "user", .jstr t.text⟩ : ChatMsg))).length := by
      simp [i.isLt]
    simp [respondMessages, List.getElem?_cons_succ, List.getElem?_append, hi,
      List.getElem?_eq_getElem, i.isLt]
  · simp [respondMessages, List.getElem?_cons_succ, List.getElem?_append_right,
      List.length_map]

/-- C7 witness: a two-turn history (one counterparty turn, one subject turn). -/
theorem respond_replays_history_inverted_witness :
    (respondMessages "ok" witHist .fnil).length = 4 ∧
    (respondMessages "ok" witHist .fnil)[1]? = some ⟨"assistant", .jstr "hello"⟩ ∧
    (respondMessages "ok" witHist .fnil)[2]? = some ⟨"user", .jstr "pay"⟩ ∧
    (respondMessages "ok" witHist .fnil)[3]? = some ⟨"user", .jstr "ok"⟩ := by
  have T := respond_replays_history_inverted "ok" witHist .fnil
  refine ⟨T.1, ?_, ?_, T.2.2⟩
  · have h0 := T.2.1 ⟨0, by decide⟩
    simpa using h0
  · have h1 := T.2.1 ⟨1, by decide⟩
    simpa using h1

/-- Lemma: the history field extracted by `parseFields` is the supplied
`conversationHistory` list when it is one. -/
theorem parseFields_obj_history (fs : JsonFields) (f : ReqFields) (harr : JsonArr)
    (hp : parseFields (.jobj fs) = .ok f)
    (hh : jget fs "conversationHistory" = some (.jarr harr)) :
    f.history = harr.toList := by
  unfold parseFields at hp
  try dsimp only at hp
  cases hm : (jget fs "message").getD (.jobj .fnil) with
  | jobj mfs =>
    rw [hm] at hp
    injection hp with hp2
    rw [← hp2]
    simp [hh]
  | jnull => rw [hm] at hp; exact Except.noConfusion hp
  | jbool b => rw [hm] at hp; exact Except.noConfusion hp
  | jnum n => rw [hm] at hp; exact Except.noConfusion hp
  | jstr s => rw [hm] at hp; exact Except.noConfusion hp
  | jarr a => rw [hm] at hp; exact Except.noConfusion hp

/-- C8 (confirmed): for every scam-positive request whose supplied
`conversationHistory` is a list, any dispatched callback payload has the
`mkCallback` shape: exactly the fields `sessionId` (the request's),
`scamDetected` constantly `true`, `totalMessagesExchanged` equal to the
supplied history length plus one, `extractedIntelligence` holding exactly
the five set fields of an `IntelRecord` (no `agentNotes` inside), and
`agentNotes` as a separate top-level field. -/
theorem endpoint_callback_shape (provider : Provider) (loads : String → Option Json)
    (timedOut : Bool) (fs : JsonFields) (f : ReqFields) (harr : JsonArr)
    (p : CallbackPayload)
    (hp : parseFields (.jobj fs) = .ok f)
    (hh : jget fs "conversationHistory" = some (.jarr harr))
    (hcb : (handle_message_root provider loads timedOut (some API_KEY)
        (.ok (.jobj fs))).2 = some p) :
    p.scamDetected = true ∧
    p.totalMessagesExchanged = harr.toList.length + 1 ∧
    p.sessionId = f.sessionId ∧
    ∃ intel : IntelRecord, p = mkCallback f.sessionId harr.toList.length intel := by
  have hfh := parseFields_obj_history fs f harr hp hh
  unfold handle_message_root at hcb
  rw [if_neg (fun h => h rfl)] at hcb
  simp only [hp] at hcb
  cases hd : detect_scamJ provider f.text f.history with
  | error e =>
    simp only [hd] at hcb
    exact Option.noConfusion hcb
  | ok b =>
    cases b with
    | false =>
      simp only [hd] at hcb
      exact Option.noConfusion hcb
    | true =>
      simp only [hd] at hcb
      cases timedOut with
      | true =>
        rw [if_pos rfl] at hcb
        injection hcb with hcb2
        refine ⟨by rw [← hcb2]; rfl, ?_, by rw [← hcb2]; rfl, ?_⟩
        · rw [← hcb2, ← hfh]; rfl
        · exact ⟨timeoutIntel, by rw [← hcb2, hfh]⟩
      | false =>
        rw [if_neg (by simp)] at hcb
        cases hai : aiPair provider loads f with
        | error e =>
          simp only [hai] at hcb
          exact Option.noConfusion hcb
        | ok pr =>
          simp only [hai] at hcb
          injection hcb with hcb2
          refine ⟨by rw [← hcb2]; rfl, ?_, by rw [← hcb2]; rfl, ?_⟩
          · rw [← hcb2, ← hfh]; rfl
          · exact ⟨pr.1, by rw [← hcb2, hfh]⟩

/-- C8 witness: a concrete scam-positive request with an empty supplied
history and the wait expired. -/
theorem endpoint_callback_shape_witness :
    (mkCallback (.jstr "s1") 0 timeoutIntel).scamDetected = true ∧
    (mkCallback (.jstr "s1") 0 timeoutIntel).totalMessagesExchanged =
      JsonArr.anil.toList.length + 1 ∧
    (mkCallback (.jstr "s1") 0 timeoutIntel).sessionId = witReq.sessionId ∧
    ∃ intel : IntelRecord, mkCallback (.jstr "s1") 0 timeoutIntel =
      mkCallback witReq.sessionId JsonArr.anil.toList.length intel :=
  endpoint_callback_shape witProviderErr witLoadsNone true witBodyFields witReq .anil
    (mkCallback (.jstr "s1") 0 timeoutIntel) (by decide) (by decide) (by decide)

/-- C9 (confirmed): on the deterministic fallback-only path (the extraction
provider call fails), `extract_intelligence` is a function of the transcript
alone — two invocations with identical message and history agree, whatever
the parse function or provider state. -/
theorem extract_fallback_deterministic (loads1 loads2 : String → Option Json)
    (provider1 provider2 : Provider) (message : String) (history : List Turn)
    (h1 : provider1 (extractMessages (fullText message history)) = .error ())
    (h2 : provider2 (extractMessages (fullText message history)) = .error ()) :
    extract_intelligence loads1 provider1 message history =
      extract_intelligence loads2 provider2 message history := by
  unfold extract_intelligence extract_intelligence_logged extract_core
  rw [h1, h2]

/-- C9 witness: two fallback-only invocations over the same transcript with
different parse functions. -/
theorem extract_fallback_deterministic_witness :
    extract_intelligence witLoadsNone witProviderErr "hey" [] =
      extract_intelligence witLoadsOk witProviderErr "hey" [] :=
  extract_fallback_deterministic witLoadsNone witLoadsOk witProviderErr witProviderErr
    "hey" [] rfl rfl

/-- C10 (confirmed): `detect_scam` never reads its history argument — neither
the classification prompt nor the keyword fallback mentions it — so for any
two histories the result is identical. -/
theorem detect_ignores_history (provider : Provider) (message : String)
    (h1 h2 : List Turn) :
    detect_scam provider message h1 = detect_scam provider message h2 := rfl

/-- C10 witness: the same message against two different histories. -/
theorem detect_ignores_history_witness :
    detect_scam witProviderErr "hi" [] =
      detect_scam witProviderErr "hi" [⟨"user", "x"⟩] :=
  detect_ignores_history witProviderErr "hi" [] [⟨"user", "x"⟩]
